import Mathlib

/-!
Verification of the Action Orchestration Pipeline of the
avalanche-yield-orchestrator repository.

The definitions below are a shallow embedding of the TypeScript source:

* `src/src/types/index.ts` — the shared data model (`PlanAction`,
  `ProtocolConfig`, `SafetyCheck`, `Opportunity`, `Position`);
* `src/src/utils/helpers.ts` — the Safety Engine (`performSafetyChecks`)
  and the helpers `calculateDeadline`, `calculateMinAmountOut`,
  `getMockPrice`, `tokenToUsd`;
* `src/src/connectors/traderjoe.ts` — the TraderJoe connector
  (`readOpportunities`, `buildAction`, `buildSwapTx`, `sendAction`);
* the Benqi connector (`readOpportunities`, `buildAction`,
  `calculateHealthFactor`, `sendAction`);
* the Testnet aggregating connector (`readOpportunities`, `readPosition`);
* `src/src/connectors/yieldyak.ts` (`getVaultForToken`, `buildDepositTx`).

Modelling conventions:

* JavaScript `number` values that hold USD amounts, rates and risk scores
  are modelled as `ℚ` (the source compares and adds them exactly at the
  magnitudes involved); `bigint` token amounts are `Int`; basis points,
  timestamps and gas values are `Int`.
* `await`ed chain reads that can reject are modelled as `Except` values
  supplied as explicit parameters (the chain is an oracle); `try/catch`
  blocks become `match`es on those `Except` values.
* ABI-encoded calldata (`interface.encodeFunctionData`) is modelled by the
  inductive `CallData`, one constructor per encoded contract function,
  holding the encoded arguments.  ABI encoding of a fixed function
  signature is injective in its arguments, so constructor injectivity
  mirrors byte-level distinctness of the encodings.
* Wall-clock time (`Date.now()` seen through `getCurrentTimestamp`) is an
  explicit parameter `now : Int` (seconds).
-/

namespace AYO

/-- `PlanAction.type` from `src/src/types/index.ts`: the closed set of
action kinds. -/
inductive ActionType
  | swap
  | lp_add
  | lp_remove
  | supply
  | withdraw
  | borrow
  | repay
  | deposit
  | withdraw_vault
  deriving DecidableEq, Repr

/-- The string form of an action type, as it appears in TypeScript
(the `type` field is a string literal union). -/
def ActionType.render : ActionType → String
  | .swap => "swap"
  | .lp_add => "lp_add"
  | .lp_remove => "lp_remove"
  | .supply => "supply"
  | .withdraw => "withdraw"
  | .borrow => "borrow"
  | .repay => "repay"
  | .deposit => "deposit"
  | .withdraw_vault => "withdraw_vault"

/-- `PlanAction` from `src/src/types/index.ts`. -/
structure PlanAction where
  type : ActionType
  protocol : String
  fromToken : String
  toToken : String
  amount : Int
  amountUsd : ℚ
  slippageBps : Int
  deadline : Int
  estimatedGas : Int
  estimatedGasUsd : ℚ
  riskScore : ℚ
  deriving DecidableEq, Repr

/-- `ProtocolConfig` from `src/src/types/index.ts`.  The TypeScript
interface has an index-signature extension `[key: string]: any`; the one
extension field the connectors read is `minHealthFactor` (Benqi/Aave), so
it is included here with default `0`. -/
structure ProtocolConfig where
  name : String
  maxNotionalPerTx : ℚ
  dailyCap : ℚ
  defaultSlippageBps : Int
  maxSlippageBps : Int
  minHealthFactor : ℚ := 0
  deriving DecidableEq, Repr

/-- `SafetyCheck` from `src/src/types/index.ts`.  The optional
`healthFactorCheck` field is never set by `performSafetyChecks` and is
omitted. -/
structure SafetyCheck where
  passed : Bool
  reason : String
  notionalCheck : Bool
  dailyCapCheck : Bool
  slippageCheck : Bool
  deriving DecidableEq, Repr

/-- `performSafetyChecks` from `src/src/utils/helpers.ts` (lines 57-85).
`currentPrices` is a parameter of the TypeScript function that its body
never reads; it is kept for fidelity. -/
def performSafetyChecks (action : PlanAction) (config : ProtocolConfig)
    (dailyUsage : ℚ) (currentPrices : List (String × ℚ)) : SafetyCheck :=
  let notionalCheck : Bool := decide (action.amountUsd ≤ config.maxNotionalPerTx)
  let dailyCapCheck : Bool := decide (dailyUsage + action.amountUsd ≤ config.dailyCap)
  let slippageCheck : Bool := decide (action.slippageBps ≤ config.maxSlippageBps)
  let passed := notionalCheck && dailyCapCheck && slippageCheck
  let reason : String :=
    if notionalCheck = false then
      "Amount " ++ toString action.amountUsd ++ " exceeds max notional per tx "
        ++ toString config.maxNotionalPerTx
    else if dailyCapCheck = false then
      "Daily usage " ++ toString (dailyUsage + action.amountUsd) ++ " exceeds daily cap "
        ++ toString config.dailyCap
    else if slippageCheck = false then
      "Slippage " ++ toString action.slippageBps ++ " bps exceeds max "
        ++ toString config.maxSlippageBps ++ " bps"
    else ""
  { passed := passed, reason := reason, notionalCheck := notionalCheck,
    dailyCapCheck := dailyCapCheck, slippageCheck := slippageCheck }

/-- `getCurrentTimestamp` returns `Math.floor(Date.now() / 1000)`; the
wall clock is the explicit parameter `now` (seconds), so the function is
the identity on it. -/
def getCurrentTimestamp (now : Int) : Int := now

/-- `calculateDeadline` from `src/src/utils/helpers.ts` (lines 100-102). -/
def calculateDeadline (now : Int) (minutesFromNow : Int := 20) : Int :=
  getCurrentTimestamp now + minutesFromNow * 60

/-- `calculateMinAmountOut` from `src/src/utils/helpers.ts`:
`(amountIn * BigInt(10000 - slippageBps)) / BigInt(10000)` (bigint
division truncates toward zero, as `Int` division does). -/
def calculateMinAmountOut (amountIn : Int) (slippageBps : Int) : Int :=
  amountIn * (10000 - slippageBps) / 10000

/-- `getMockPrice` from `src/src/utils/helpers.ts`: fixed price table
with default `1.0`. -/
def getMockPrice (tokenAddress : String) : ℚ :=
  if tokenAddress = "0xB31f66AA3C1e785363F0875A1B74E27b85FD66c7" then 25
  else if tokenAddress = "0xB97EF9Ef8734C71904D8002F8b6Bc66Dd9c48a6E" then 1
  else if tokenAddress = "0x9702230A8Ea53601f5cD2dc00fDBc13d4dF4A8c7" then 1
  else if tokenAddress = "0x0000000000000000000000000000000000000000" then 1
  else 1

/-- `tokenToUsd` from `src/src/utils/helpers.ts`: scales the raw amount
by the token's decimals and multiplies by the mock price (exact rational
arithmetic in place of the float round trip). -/
def tokenToUsd (amount : Int) (decimals : Nat) (tokenAddress : String) : ℚ :=
  ((amount : ℚ) / 10 ^ decimals) * getMockPrice tokenAddress

/-- ABI-encoded calldata produced by `interface.encodeFunctionData`.
One constructor per contract function the connectors encode, holding the
encoded arguments in source order.  Distinct constructors / distinct
arguments correspond to distinct encoded byte strings. -/
inductive CallData
  | swapExactTokensForTokens (amountIn amountOutMin : Int) (path : List String)
      (toAddr : String) (deadline : Int)
  | addLiquidity (tokenA tokenB : String) (amountADesired amountBDesired : Int)
      (amountAMin amountBMin : Int) (toAddr : String) (deadline : Int)
  | removeLiquidity (tokenA tokenB : String) (liquidity : Int)
      (amountAMin amountBMin : Int) (toAddr : String) (deadline : Int)
  | mint (amount : Int)
  | redeemUnderlying (amount : Int)
  | borrow (amount : Int)
  | repayBorrow (amount : Int)
  | deposit (amount : Int)
  | withdraw (shares : Int)
  | approve (spender : String) (amount : Int)
  deriving DecidableEq, Repr

/-- `ethers.TransactionRequest` as the connectors populate it.  The
TypeScript fields `to`/`from` are Lean keywords, hence
`toAddr`/`fromAddr`. -/
structure TxRequest where
  toAddr : String
  data : CallData
  fromAddr : String
  value : Int
  gasLimit : Option Int := none
  deriving DecidableEq, Repr

/-- `Opportunity` from `src/src/types/index.ts` (optional metrics fields
`vol`/`ilRisk`/`tvl` are never set by the modelled connectors and are
omitted). -/
structure Opportunity where
  id : String
  protocol : String
  apr : ℚ
  tokenAddress : String
  tokenSymbol : String
  estGasUsd : ℚ
  riskScore : ℚ
  deriving DecidableEq, Repr

/-- `Position` from `src/src/types/index.ts`. -/
structure Position where
  id : String
  protocol : String
  tokenAddress : String
  tokenSymbol : String
  balance : Int
  balanceUsd : ℚ
  apr : Option ℚ := none
  healthFactor : Option ℚ := none
  deriving DecidableEq, Repr

/-- A mined transaction receipt (opaque to the core; only its identity
matters to the properties below). -/
structure TxReceipt where
  hash : String
  status : Int
  deriving DecidableEq, Repr

/-- `DryRunResult` from `src/src/types/index.ts`, as produced by
`dryRunTx` (which never throws: it catches and returns `success: false`).
Its value comes from the chain, so connectors receive it as a
parameter. -/
structure DryRunResult where
  success : Bool
  error : Option String := none
  deriving DecidableEq, Repr

/-! ## TraderJoe connector (`src/src/connectors/traderjoe.ts`) -/

/-- The `TRADER_JOE_CONFIG` object loaded from `config/protocols.json`:
the generic `ProtocolConfig` limits plus the addresses and the deadline
default the connector reads. -/
structure TraderJoeConfig where
  base : ProtocolConfig
  router : String
  wavax : String
  usdc : String
  link : String
  defaultDeadlineMinutes : Int
  deriving DecidableEq, Repr

/-- The pair list hard-coded in `TraderJoeConnector.readOpportunities`
(lines 45-49): `(from, to, name)`. -/
def tjPairs (c : TraderJoeConfig) : List (String × String × String) :=
  [(c.wavax, c.usdc, "AVAX-USDC"), (c.wavax, c.link, "AVAX-LINK"),
   (c.usdc, c.link, "USDC-LINK")]

/-- The opportunity pushed for a successfully queried pair
(`traderjoe.ts` lines 59-67). -/
def tjSwapOpp (fromAddr name : String) : Opportunity :=
  { id := "tj-" ++ name.toLower ++ "-swap", protocol := "traderjoe", apr := 0,
    tokenAddress := fromAddr, tokenSymbol := name ++ " Swap",
    estGasUsd := 4, riskScore := 0.2 }

/-- `TraderJoeConnector.readOpportunities` (lines 36-79).  The only
fallible chain read per pair is `fromContract.symbol()`, modelled by the
oracle `symbolOf`; its failure is caught and the loop continues
("Continue to next pair, don't fallback to mocks"). -/
def tjReadOpportunities (c : TraderJoeConfig)
    (symbolOf : String → Except Unit String) : List Opportunity :=
  (tjPairs c).foldl
    (fun acc p =>
      match symbolOf p.1 with
      | .ok _ => acc ++ [tjSwapOpp p.1 p.2.2]
      | .error _ => acc)
    []

/-- `TraderJoeConnector.buildSwapTx` (lines 185-203). -/
def tjBuildSwapTx (c : TraderJoeConfig) (now : Int) (action : PlanAction)
    (wallet : String) : TxRequest :=
  let deadline := calculateDeadline now c.defaultDeadlineMinutes
  let minAmountOut := calculateMinAmountOut action.amount action.slippageBps
  { toAddr := c.router,
    data := .swapExactTokensForTokens action.amount minAmountOut
      [action.fromToken, action.toToken] wallet deadline,
    fromAddr := wallet, value := 0 }

/-- `TraderJoeConnector.buildAddLiquidityTx` (lines 208-232). -/
def tjBuildAddLiquidityTx (c : TraderJoeConfig) (now : Int) (action : PlanAction)
    (wallet : String) : TxRequest :=
  let deadline := calculateDeadline now c.defaultDeadlineMinutes
  let amountAMin := calculateMinAmountOut action.amount action.slippageBps
  let amountBMin := calculateMinAmountOut action.amount action.slippageBps
  { toAddr := c.router,
    data := .addLiquidity action.fromToken action.toToken action.amount action.amount
      amountAMin amountBMin wallet deadline,
    fromAddr := wallet, value := 0 }

/-- `TraderJoeConnector.buildRemoveLiquidityTx` (lines 237-259). -/
def tjBuildRemoveLiquidityTx (c : TraderJoeConfig) (now : Int) (action : PlanAction)
    (wallet : String) : TxRequest :=
  let deadline := calculateDeadline now c.defaultDeadlineMinutes
  let amountAMin := calculateMinAmountOut action.amount action.slippageBps
  let amountBMin := calculateMinAmountOut action.amount action.slippageBps
  { toAddr := c.router,
    data := .removeLiquidity action.fromToken action.toToken action.amount
      amountAMin amountBMin wallet deadline,
    fromAddr := wallet, value := 0 }

/-- The `catch` wrapper of `TraderJoeConnector.buildAction`:
`` throw new Error(`Failed to build Trader Joe action: ${error}`) ``
(string interpolation of an `Error` prepends `"Error: "`). -/
def tjWrapBuildError (r : Except String α) : Except String α :=
  match r with
  | .ok v => .ok v
  | .error m => .error ("Failed to build Trader Joe action: Error: " ++ m)

/-- `TraderJoeConnector.buildAction` (lines 136-180).  The gas estimate is
the oracle `gas` (`estimateGas` throws `"Gas estimation failed: ..."` on a
chain error); the dry-run outcome is the oracle `dry` (`dryRunTx` never
throws). -/
def tjBuildAction (c : TraderJoeConfig) (now : Int) (gas : Except String Int)
    (dry : DryRunResult) (action : PlanAction) (wallet : String) :
    Except String (TxRequest × DryRunResult) :=
  tjWrapBuildError (do
    let safetyCheck := performSafetyChecks action c.base 0 []
    if safetyCheck.passed = false then
      Except.error ("Safety check failed: " ++ safetyCheck.reason)
    else do
      let tx : TxRequest ←
        match action.type with
        | .swap => Except.ok (tjBuildSwapTx c now action wallet)
        | .lp_add => Except.ok (tjBuildAddLiquidityTx c now action wallet)
        | .lp_remove => Except.ok (tjBuildRemoveLiquidityTx c now action wallet)
        | t => Except.error ("Unsupported action type: " ++ t.render)
      let gasEstimate : Int ←
        match gas with
        | .ok g => Except.ok g
        | .error e => Except.error ("Gas estimation failed: " ++ e)
      Except.ok ({ tx with gasLimit := some gasEstimate }, dry))

/-- The placeholder action hard-coded inside
`TraderJoeConnector.sendAction` (lines 273-290): every field is a
constant except the deadline and the config's default slippage. -/
def tjSendDummyAction (c : TraderJoeConfig) (now : Int) : PlanAction :=
  { type := .swap, protocol := "traderjoe", fromToken := "", toToken := "",
    amount := 0, amountUsd := 0, slippageBps := c.base.defaultSlippageBps,
    deadline := calculateDeadline now, estimatedGas := 0, estimatedGasUsd := 0,
    riskScore := 0 }

/-- `TraderJoeConnector.sendAction` (lines 267-305).  The "final safety
check before sending" evaluates `performSafetyChecks` on the hard-coded
placeholder action with `dailyUsage = 0`; the broadcast outcome
(`signer.sendTransaction` + `tx.wait()`, including the missing-receipt
branch) is the oracle `sendResult`.  The submitted `txRequest` is
consumed only by the broadcast itself.  The `catch` wrapper re-wraps any
error. -/
def tjSendAction (c : TraderJoeConfig) (now : Int) (txRequest : TxRequest)
    (sendResult : Except String TxReceipt) : Except String TxReceipt :=
  let inner : Except String TxReceipt :=
    let safetyCheck := performSafetyChecks (tjSendDummyAction c now) c.base 0 []
    if safetyCheck.passed = false then
      Except.error ("Final safety check failed: " ++ safetyCheck.reason)
    else
      match sendResult with
      | .ok receipt => .ok receipt
      | .error e => .error e
  match inner with
  | .ok v => .ok v
  | .error m => .error ("Failed to send Trader Joe action: Error: " ++ m)

/-! ## Benqi connector -/

/-- The data `BenqiConnector.readOpportunities` reads per qToken inside
its `try` block: `supplyRatePerBlock`, `borrowRatePerBlock`,
`underlying`, and the underlying token's `symbol`. -/
structure BenqiMarket where
  supplyRate : Int
  borrowRate : Int
  underlying : String
  symbol : String
  deriving DecidableEq, Repr

/-- The data `BenqiConnector.readPosition` / `calculateHealthFactor`
read per qToken inside their `try` blocks: `balanceOfUnderlying`,
`borrowBalanceStored` and `underlying`. -/
structure BenqiBalances where
  supply : Int
  borrow : Int
  underlying : String
  deriving DecidableEq, Repr

instance {ε α : Type _} [DecidableEq ε] [DecidableEq α] :
    DecidableEq (Except ε α) := fun a b =>
  match a, b with
  | .ok x, .ok y =>
      if h : x = y then .isTrue (congrArg Except.ok h)
      else .isFalse (fun c => h (Except.ok.inj c))
  | .error x, .error y =>
      if h : x = y then .isTrue (congrArg Except.error h)
      else .isFalse (fun c => h (Except.error.inj c))
  | .ok _, .error _ => .isFalse (fun c => Except.noConfusion c)
  | .error _, .ok _ => .isFalse (fun c => Except.noConfusion c)

/-- One entry of the connector's `qTokens` map: the config key
(e.g. `"qiAVAX"`), the qToken contract address (`contract.target`), and
the outcomes of the per-qToken chain reads. -/
structure QToken where
  key : String
  address : String
  market : Except Unit BenqiMarket
  balances : Except Unit BenqiBalances
  deriving DecidableEq, Repr

/-- Per-block rate → APR conversion used by
`BenqiConnector.readOpportunities`:
`parseFloat(formatUnits(rate, 18)) * 365 * 24 * 60 * 60 * 100`. -/
def benqiRateToApr (rate : Int) : ℚ :=
  ((rate : ℚ) / 10 ^ 18) * 31536000 * 100

/-- The two real opportunities pushed for a successfully read qToken
(Benqi `readOpportunities`, success branch). -/
def benqiRealOpps (q : QToken) (m : BenqiMarket) : List Opportunity :=
  [{ id := "benqi-" ++ q.key ++ "-supply", protocol := "benqi",
     apr := benqiRateToApr m.supplyRate, tokenAddress := m.underlying,
     tokenSymbol := m.symbol ++ " Supply", estGasUsd := 3, riskScore := 0.2 },
   { id := "benqi-" ++ q.key ++ "-borrow", protocol := "benqi",
     apr := benqiRateToApr m.borrowRate, tokenAddress := m.underlying,
     tokenSymbol := m.symbol ++ " Borrow", estGasUsd := 2.5, riskScore := 0.6 }]

/-- The two hard-coded mock opportunities pushed for a qToken whose chain
reads fail (Benqi `readOpportunities`, `catch` branch: "Add mock data for
this token when contract calls fail"). -/
def benqiMockOpps (q : QToken) : List Opportunity :=
  [{ id := "benqi-" ++ q.key ++ "-supply-mock", protocol := "benqi",
     apr := 8.5, tokenAddress := "0xB31f66AA3C1e785363F0875A1B74E27b85FD66c7",
     tokenSymbol := q.key.toUpper ++ " Supply", estGasUsd := 3, riskScore := 0.2 },
   { id := "benqi-" ++ q.key ++ "-borrow-mock", protocol := "benqi",
     apr := 12, tokenAddress := "0xB31f66AA3C1e785363F0875A1B74E27b85FD66c7",
     tokenSymbol := q.key.toUpper ++ " Borrow", estGasUsd := 2.5, riskScore := 0.6 }]

/-- The final fallback pushed when the list is still empty ("Always
ensure we return at least some mock data"). -/
def benqiFallbackOpp : Opportunity :=
  { id := "benqi-avax-supply-fallback", protocol := "benqi", apr := 8.5,
    tokenAddress := "0xB31f66AA3C1e785363F0875A1B74E27b85FD66c7",
    tokenSymbol := "AVAX Supply", estGasUsd := 3, riskScore := 0.2 }

/-- The contribution of one iteration of the `for` loop in
`BenqiConnector.readOpportunities`: the `try` block pushes the two real
opportunities; its `catch` pushes the two mocks. -/
def benqiTokenOpps (q : QToken) : List Opportunity :=
  match q.market with
  | .ok m => benqiRealOpps q m
  | .error _ => benqiMockOpps q

/-- `BenqiConnector.readOpportunities`: per-qToken `try/catch` pushing
either the two real opportunities or the two mocks, then the
empty-result fallback. -/
def benqiReadOpportunities (qTokens : List QToken) : List Opportunity :=
  let opportunities := qTokens.foldl (fun acc q => acc ++ benqiTokenOpps q) []
  if opportunities.isEmpty then [benqiFallbackOpp] else opportunities

/-- `BenqiConnector.calculateHealthFactor`: sums USD supply and borrow
values over all qTokens (`decimals` assumed 18, per-qToken failures
skipped), returns `999` when there are no borrows, else the ratio. -/
def calculateHealthFactor (qTokens : List QToken) : ℚ :=
  let totals := qTokens.foldl
    (fun (acc : ℚ × ℚ) q =>
      match q.balances with
      | .ok b =>
          (acc.1 + tokenToUsd b.supply 18 b.underlying,
           acc.2 + tokenToUsd b.borrow 18 b.underlying)
      | .error _ => acc)
    (0, 0)
  if totals.2 = 0 then 999 else totals.1 / totals.2

/-- `BenqiConnector.getQTokenForToken`: scans the `qTokens` map for a
contract whose own address (`contract.target`) equals the given token
address. -/
def getQTokenForToken (qTokens : List QToken) (tokenAddress : String) :
    Option QToken :=
  qTokens.find? (fun q => q.address == tokenAddress)

/-- Dispatch on `action.type` inside `BenqiConnector.buildAction`
(the `switch` plus the four `build*Tx` helpers). -/
def benqiDispatch (qTokens : List QToken) (action : PlanAction)
    (wallet : String) : Except String TxRequest :=
  match action.type with
  | .supply =>
      match getQTokenForToken qTokens action.toToken with
      | some q => .ok { toAddr := q.address, data := .mint action.amount,
                        fromAddr := wallet, value := 0 }
      | none => .error ("No qToken found for token " ++ action.toToken)
  | .withdraw =>
      match getQTokenForToken qTokens action.fromToken with
      | some q => .ok { toAddr := q.address, data := .redeemUnderlying action.amount,
                        fromAddr := wallet, value := 0 }
      | none => .error ("No qToken found for token " ++ action.fromToken)
  | .borrow =>
      match getQTokenForToken qTokens action.toToken with
      | some q => .ok { toAddr := q.address, data := .borrow action.amount,
                        fromAddr := wallet, value := 0 }
      | none => .error ("No qToken found for token " ++ action.toToken)
  | .repay =>
      match getQTokenForToken qTokens action.fromToken with
      | some q => .ok { toAddr := q.address, data := .repayBorrow action.amount,
                        fromAddr := wallet, value := 0 }
      | none => .error ("No qToken found for token " ++ action.fromToken)
  | t => .error ("Unsupported action type: " ++ t.render)

/-- The `catch` wrapper of `BenqiConnector.buildAction`. -/
def benqiWrapBuildError (r : Except String α) : Except String α :=
  match r with
  | .ok v => .ok v
  | .error m => .error ("Failed to build Benqi action: Error: " ++ m)

/-- `BenqiConnector.buildAction`: generic safety check with
`dailyUsage = 0`, then — for `borrow`/`repay` only — the health-factor
gate on the wallet's *current* health factor, then the `switch`, dry run
and gas estimation. -/
def benqiBuildAction (config : ProtocolConfig) (qTokens : List QToken)
    (gas : Except String Int) (dry : DryRunResult) (action : PlanAction)
    (wallet : String) : Except String (TxRequest × DryRunResult) :=
  benqiWrapBuildError (do
    let safetyCheck := performSafetyChecks action config 0 []
    if safetyCheck.passed = false then
      Except.error ("Safety check failed: " ++ safetyCheck.reason)
    else do
      if action.type = ActionType.borrow ∨ action.type = ActionType.repay then
        let currentHF := calculateHealthFactor qTokens
        if currentHF < config.minHealthFactor then
          Except.error ("Health factor " ++ toString currentHF
            ++ " below minimum " ++ toString config.minHealthFactor)
        else Except.ok ()
      else Except.ok ()
      let tx : TxRequest ← benqiDispatch qTokens action wallet
      let gasEstimate : Int ←
        match gas with
        | .ok g => Except.ok g
        | .error e => Except.error ("Gas estimation failed: " ++ e)
      Except.ok ({ tx with gasLimit := some gasEstimate }, dry))

/-- The placeholder action hard-coded inside
`BenqiConnector.sendAction` (all-zero `supply` action). -/
def benqiSendDummyAction (now : Int) : PlanAction :=
  { type := .supply, protocol := "benqi", fromToken := "", toToken := "",
    amount := 0, amountUsd := 0, slippageBps := 0,
    deadline := calculateDeadline now, estimatedGas := 0, estimatedGasUsd := 0,
    riskScore := 0 }

/-- `BenqiConnector.sendAction`: the "final safety check before sending"
evaluates `performSafetyChecks` on the hard-coded placeholder action with
`dailyUsage = 0`; the broadcast outcome is the oracle `sendResult`. -/
def benqiSendAction (config : ProtocolConfig) (now : Int) (txRequest : TxRequest)
    (sendResult : Except String TxReceipt) : Except String TxReceipt :=
  let inner : Except String TxReceipt :=
    let safetyCheck := performSafetyChecks (benqiSendDummyAction now) config 0 []
    if safetyCheck.passed = false then
      Except.error ("Final safety check failed: " ++ safetyCheck.reason)
    else
      match sendResult with
      | .ok receipt => .ok receipt
      | .error e => .error e
  match inner with
  | .ok v => .ok v
  | .error m => .error ("Failed to send Benqi action: Error: " ++ m)

/-! ## Testnet aggregating connector -/

/-- The `try { push(...await adapter.read...) } catch { warn }` pattern
of the Testnet connector: a failing adapter contributes the empty list. -/
def collectOrEmpty (r : Except String (List α)) : List α :=
  match r with
  | .ok l => l
  | .error _ => []

/-- `TestnetConnector.readOpportunities`: the prelude (`getBlock`,
`getFeeData`) is the oracle `prelude` — its failure propagates (the outer
`catch` rethrows) — then the three per-adapter reads, each wrapped in its
own `try/catch`. -/
def testnetReadOpportunities (prelude : Except String Unit)
    (aaveRes pangolinRes traderJoeRes : Except String (List Opportunity)) :
    Except String (List Opportunity) :=
  match prelude with
  | .error e => .error e
  | .ok _ =>
      .ok (collectOrEmpty aaveRes ++ collectOrEmpty pangolinRes
        ++ collectOrEmpty traderJoeRes)

/-- `TestnetConnector.readPosition`: the native-balance prelude (address
validation, `getBalance`, `getTransactionCount`, optional native AVAX
position) is the oracle `native` — its failure propagates — then the
three per-adapter reads, each wrapped in its own `try/catch`. -/
def testnetReadPosition (native : Except String (List Position))
    (aaveRes pangolinRes traderJoeRes : Except String (List Position)) :
    Except String (List Position) :=
  match native with
  | .error e => .error e
  | .ok n =>
      .ok (n ++ collectOrEmpty aaveRes ++ collectOrEmpty pangolinRes
        ++ collectOrEmpty traderJoeRes)

/-! ## YieldYak connector (`src/src/connectors/yieldyak.ts`) -/

/-- One entry of the YieldYak `vaults` map: config key, vault contract
address (`contract.target`) and the outcome of the fallible
`vault.token()` read. -/
structure YYVault where
  key : String
  address : String
  tokenRes : Except Unit String
  deriving DecidableEq, Repr

/-- The first scan of `getVaultForToken`: does `vault.token()` succeed
and equal the requested token address?  (A failing `token()` read is
caught and the scan continues.) -/
def yyVaultMatchesToken (v : YYVault) (tokenAddress : String) : Bool :=
  match v.tokenRes with
  | .ok t => t == tokenAddress
  | .error _ => false

/-- `YieldYakConnector.getVaultForToken` (lines 723-751): find by
underlying token, else by vault address, else fall back to the first
registered vault ("using first available vault for testing"), else
`null`. -/
def getVaultForToken (vaults : List YYVault) (tokenAddress : String) :
    Option YYVault :=
  match vaults.find? (fun v => yyVaultMatchesToken v tokenAddress) with
  | some v => some v
  | none =>
      match vaults.find? (fun v => v.address == tokenAddress) with
      | some v => some v
      | none => vaults.head?

/-- `YieldYakConnector.buildDepositTx` (lines 633-647): resolve the vault
for `action.toToken`, throw `"No vault found ..."` when there is none,
else encode `deposit(amount)` against the vault address. -/
def yyBuildDepositTx (vaults : List YYVault) (action : PlanAction)
    (wallet : String) : Except String TxRequest :=
  match getVaultForToken vaults action.toToken with
  | none => .error ("No vault found for token " ++ action.toToken)
  | some vault =>
      .ok { toAddr := vault.address, data := .deposit action.amount,
            fromAddr := wallet, value := 0 }

/-! ## Concrete fixtures (the spec's example configuration and actions) -/

/-- The example per-protocol limits from the spec's scenarios and
`config/protocols.json`: `{maxNotionalPerTx: 250, dailyCap: 1000,
defaultSlippageBps: 50, maxSlippageBps: 500}`. -/
def specConfig : ProtocolConfig :=
  { name := "traderjoe", maxNotionalPerTx := 250, dailyCap := 1000,
    defaultSlippageBps := 50, maxSlippageBps := 500 }

/-- The spec's passing scenario action `{amountUsd: 200, slippageBps: 50}`. -/
def specActionOk : PlanAction :=
  { type := .swap, protocol := "traderjoe",
    fromToken := "0xB31f66AA3C1e785363F0875A1B74E27b85FD66c7",
    toToken := "0xB97EF9Ef8734C71904D8002F8b6Bc66Dd9c48a6E",
    amount := 100000000000000000000, amountUsd := 200, slippageBps := 50,
    deadline := 1700000000, estimatedGas := 200000, estimatedGasUsd := 5,
    riskScore := 0.4 }

/-- The spec's failing scenario action `{amountUsd: 2500, slippageBps: 50}`. -/
def specActionTooBig : PlanAction :=
  { specActionOk with amountUsd := 2500 }

/-! ## Safety Engine theorems (claims C2, C8, C9) -/

lemma notional_reason_split (s t : String) :
    "Amount " ++ s ++ " exceeds max notional per tx " ++ t
      = ("Amount " ++ s ++ " ") ++ "exceeds max notional" ++ (" per tx " ++ t) := by
  have lit : " " ++ "exceeds max notional" ++ " per tx "
      = " exceeds max notional per tx " := by decide
  rw [← lit]
  simp only [String.append_assoc]

/-- **C2.** For every `ProtocolConfig` and `PlanAction` with
`amountUsd > maxNotionalPerTx`, the Safety Engine returns
`passed = false` and `notionalCheck = false`, and the primary reason
string mentions exceeding the max notional (it contains the phrase
`"exceeds max notional"`). -/
theorem C2_notional_violation_fails (action : PlanAction) (config : ProtocolConfig)
    (dailyUsage : ℚ) (prices : List (String × ℚ))
    (h : action.amountUsd > config.maxNotionalPerTx) :
    (performSafetyChecks action config dailyUsage prices).passed = false ∧
    (performSafetyChecks action config dailyUsage prices).notionalCheck = false ∧
    ∃ pre post,
      (performSafetyChecks action config dailyUsage prices).reason
        = pre ++ "exceeds max notional" ++ post := by
  have hn : decide (action.amountUsd ≤ config.maxNotionalPerTx) = false :=
    decide_eq_false (not_le.mpr h)
  refine ⟨?_, ?_, ?_⟩
  · simp [performSafetyChecks, hn]
  · simp [performSafetyChecks, hn]
  · refine ⟨"Amount " ++ toString action.amountUsd ++ " ",
      " per tx " ++ toString config.maxNotionalPerTx, ?_⟩
    simp only [performSafetyChecks, hn]
    rw [if_pos trivial]
    exact notional_reason_split _ _

/-- Witness for C2 at the spec's scenario: config
`{maxNotionalPerTx: 250, dailyCap: 1000, maxSlippageBps: 500}` and action
`{amountUsd: 2500, slippageBps: 50}`. -/
theorem C2_notional_violation_fails_witness :
    specActionTooBig.amountUsd > specConfig.maxNotionalPerTx ∧
    ((performSafetyChecks specActionTooBig specConfig 0 []).passed = false ∧
     (performSafetyChecks specActionTooBig specConfig 0 []).notionalCheck = false ∧
     ∃ pre post,
       (performSafetyChecks specActionTooBig specConfig 0 []).reason
         = pre ++ "exceeds max notional" ++ post) :=
  ⟨by norm_num [specActionTooBig, specActionOk, specConfig],
   C2_notional_violation_fails specActionTooBig specConfig 0 []
     (by norm_num [specActionTooBig, specActionOk, specConfig])⟩

/-- **C8.** The Safety Engine evaluates all three predicates on every
call: each sub-check field equals its own predicate (a function of that
predicate's inputs alone, hence independent of the other checks'
outcomes), `passed` is their conjunction, and the primary `reason` string
is that of the first violated check in the priority order
notional → daily-cap → slippage. -/
theorem C8_subchecks_independent_reason_priority (action : PlanAction)
    (config : ProtocolConfig) (dailyUsage : ℚ) (prices : List (String × ℚ)) :
    let r := performSafetyChecks action config dailyUsage prices
    r.notionalCheck = decide (action.amountUsd ≤ config.maxNotionalPerTx) ∧
    r.dailyCapCheck = decide (dailyUsage + action.amountUsd ≤ config.dailyCap) ∧
    r.slippageCheck = decide (action.slippageBps ≤ config.maxSlippageBps) ∧
    r.passed = (r.notionalCheck && r.dailyCapCheck && r.slippageCheck) ∧
    r.reason =
      (if r.notionalCheck = false then
        "Amount " ++ toString action.amountUsd ++ " exceeds max notional per tx "
          ++ toString config.maxNotionalPerTx
      else if r.dailyCapCheck = false then
        "Daily usage " ++ toString (dailyUsage + action.amountUsd)
          ++ " exceeds daily cap " ++ toString config.dailyCap
      else if r.slippageCheck = false then
        "Slippage " ++ toString action.slippageBps ++ " bps exceeds max "
          ++ toString config.maxSlippageBps ++ " bps"
      else "") :=
  ⟨rfl, rfl, rfl, rfl, rfl⟩

/-- **C9.** Every action within all three limits passes the Safety
Engine. -/
theorem C9_within_limits_passes (action : PlanAction) (config : ProtocolConfig)
    (dailyUsage : ℚ) (prices : List (String × ℚ))
    (h1 : action.amountUsd ≤ config.maxNotionalPerTx)
    (h2 : action.slippageBps ≤ config.maxSlippageBps)
    (h3 : dailyUsage + action.amountUsd ≤ config.dailyCap) :
    (performSafetyChecks action config dailyUsage prices).passed = true := by
  simp [performSafetyChecks, h1, h2, h3]

/-- Witness for C9 at the spec's scenario: config
`{maxNotionalPerTx: 250, dailyCap: 1000, maxSlippageBps: 500}`, action
`{amountUsd: 200, slippageBps: 50}`, `dailyUsage = 0`. -/
theorem C9_within_limits_passes_witness :
    (specActionOk.amountUsd ≤ specConfig.maxNotionalPerTx ∧
     specActionOk.slippageBps ≤ specConfig.maxSlippageBps ∧
     (0 : ℚ) + specActionOk.amountUsd ≤ specConfig.dailyCap) ∧
    (performSafetyChecks specActionOk specConfig 0 []).passed = true :=
  ⟨⟨by norm_num [specActionOk, specConfig], by norm_num [specActionOk, specConfig],
    by norm_num [specActionOk, specConfig]⟩,
   C9_within_limits_passes specActionOk specConfig 0 []
     (by norm_num [specActionOk, specConfig])
     (by norm_num [specActionOk, specConfig])
     (by norm_num [specActionOk, specConfig])⟩

/-- A concrete TraderJoe configuration for witnesses: the spec's limits
plus arbitrary distinct addresses. -/
def tjConfigFix : TraderJoeConfig :=
  { base := specConfig, router := "0x60aE616a2155Ee3d9A68541Ba4544862310933d4",
    wavax := "0xB31f66AA3C1e785363F0875A1B74E27b85FD66c7",
    usdc := "0xB97EF9Ef8734C71904D8002F8b6Bc66Dd9c48a6E",
    link := "0x5947BB275c521040051D82396192181b413227A3",
    defaultDeadlineMinutes := 20 }

/-- A concrete mined receipt for witnesses. -/
def someReceipt : TxReceipt := { hash := "0xabc", status := 1 }

/-! ## Claim C5: unsupported action kinds are rejected with an explicit
message -/

/-- **C5.** A `PlanAction` whose kind the TraderJoe adapter does not
support is never built successfully (no silent no-op), and — whenever the
action reaches the kind dispatch, i.e. it passes the safety check — the
call throws with the message `"Unsupported action type: <kind>"` (the
thrown error's message is that text inside the connector's
`"Failed to build Trader Joe action: Error: ..."` wrapper, which is how
the repository's own test asserts it). -/
theorem C5_unsupported_type_rejected (c : TraderJoeConfig) (now : Int)
    (gas : Except String Int) (dry : DryRunResult) (action : PlanAction)
    (wallet : String)
    (h1 : action.type ≠ ActionType.swap) (h2 : action.type ≠ ActionType.lp_add)
    (h3 : action.type ≠ ActionType.lp_remove) :
    (∀ v, tjBuildAction c now gas dry action wallet ≠ .ok v) ∧
    ((performSafetyChecks action c.base 0 []).passed = true →
      tjBuildAction c now gas dry action wallet
        = .error ("Failed to build Trader Joe action: Error: "
            ++ ("Unsupported action type: " ++ action.type.render))) := by
  constructor
  · intro v hv
    cases hp : (performSafetyChecks action c.base 0 []).passed with
    | false => simp [tjBuildAction, tjWrapBuildError, hp] at hv
    | true =>
        cases hty : action.type with
        | swap => exact h1 hty
        | lp_add => exact h2 hty
        | lp_remove => exact h3 hty
        | _ => simp [tjBuildAction, tjWrapBuildError, Bind.bind, Except.bind, hp, hty] at hv
  · intro hp
    cases hty : action.type with
    | swap => exact absurd hty h1
    | lp_add => exact absurd hty h2
    | lp_remove => exact absurd hty h3
    | _ => simp [tjBuildAction, tjWrapBuildError, Bind.bind, Except.bind, hp, hty, ActionType.render]

/-- Witness for C5 at the spec's scenario: kind `"supply"` submitted to
the DEX-only TraderJoe adapter with an otherwise-valid action. -/
theorem C5_unsupported_type_rejected_witness :
    ({ specActionOk with type := ActionType.supply }.type ≠ ActionType.swap ∧
     { specActionOk with type := ActionType.supply }.type ≠ ActionType.lp_add ∧
     { specActionOk with type := ActionType.supply }.type ≠ ActionType.lp_remove ∧
     (performSafetyChecks { specActionOk with type := ActionType.supply }
        tjConfigFix.base 0 []).passed = true) ∧
    tjBuildAction tjConfigFix 1700000000 (.ok 200000) { success := true }
        { specActionOk with type := ActionType.supply } "0xWALLET"
      = .error ("Failed to build Trader Joe action: Error: "
          ++ ("Unsupported action type: " ++ ActionType.supply.render)) :=
  ⟨⟨by decide, by decide, by decide,
    by norm_num [performSafetyChecks, specActionOk, tjConfigFix, specConfig]⟩,
   (C5_unsupported_type_rejected tjConfigFix 1700000000 (.ok 200000)
      { success := true } { specActionOk with type := ActionType.supply } "0xWALLET"
      (by decide) (by decide) (by decide)).2
     (by norm_num [performSafetyChecks, specActionOk, tjConfigFix, specConfig])⟩

/-! ## Claim C7: build idempotence -/

/-- **C7 counterexample.** Two `buildSwapTx` calls with identical
`(action, wallet)` and no chain interaction at all (the function reads no
chain state), one wall-clock minute apart, produce the same `to` but
*different* `data`: the encoded deadline `now + defaultDeadlineMinutes*60`
differs.  This refutes the claim that identical inputs under unchanged
chain state always yield the same `data`. -/
theorem C7_counterexample :
    (tjBuildSwapTx tjConfigFix 1700000000 specActionOk "0xWALLET").toAddr
      = (tjBuildSwapTx tjConfigFix 1700000060 specActionOk "0xWALLET").toAddr ∧
    (tjBuildSwapTx tjConfigFix 1700000000 specActionOk "0xWALLET").data
      ≠ (tjBuildSwapTx tjConfigFix 1700000060 specActionOk "0xWALLET").data := by
  constructor
  · rfl
  · decide

/-- **C7 (amended).** Two `buildSwapTx` calls with identical
`(action, wallet)` inputs always agree on `to`, and agree on `data`
exactly when the wall-clock timestamps of the two calls agree: the
encoded calldata is a function of `(action, wallet, now)` alone, and it
is injective in the deadline derived from `now`. -/
theorem C7_build_idempotent_at_fixed_time (c : TraderJoeConfig)
    (now₁ now₂ : Int) (action : PlanAction) (wallet : String) :
    (tjBuildSwapTx c now₁ action wallet).toAddr
      = (tjBuildSwapTx c now₂ action wallet).toAddr ∧
    ((tjBuildSwapTx c now₁ action wallet).data
        = (tjBuildSwapTx c now₂ action wallet).data ↔ now₁ = now₂) ∧
    (now₁ = now₂ →
      tjBuildSwapTx c now₁ action wallet = tjBuildSwapTx c now₂ action wallet) := by
  refine ⟨rfl, ?_, ?_⟩
  · constructor
    · intro h
      simp only [tjBuildSwapTx, calculateDeadline, getCurrentTimestamp,
        CallData.swapExactTokensForTokens.injEq] at h
      omega
    · intro h
      rw [h]
  · intro h
    rw [h]

/-- Witness for C7 (amended): at equal timestamps the two builds agree on
`data`. -/
theorem C7_build_idempotent_at_fixed_time_witness :
    (tjBuildSwapTx tjConfigFix 1700000000 specActionOk "0xWALLET").data
      = (tjBuildSwapTx tjConfigFix 1700000000 specActionOk "0xWALLET").data :=
  ((C7_build_idempotent_at_fixed_time tjConfigFix 1700000000 1700000000
      specActionOk "0xWALLET").2.1).mpr rfl

/-! ## Claim C1: the final safety check before broadcasting -/

/-- **C1.** The "final safety check" inside `sendAction` evaluates the
Safety Engine on a hard-coded placeholder action (`amountUsd = 0`,
slippage `defaultSlippageBps` for TraderJoe / `0` for Benqi) with
`dailyUsage = 0` — never on the action actually being sent and never on
fresh daily usage.  Consequently, for any configuration whose limits are
non-negative and whose default slippage is within its maximum, the gate
passes and the broadcast proceeds for *every* submitted transaction —
including (hypothesis `hbad`) one whose originating action fails its own
safety evaluation. -/
theorem C1_final_send_check_ignores_action (c : TraderJoeConfig)
    (benqiConfig : ProtocolConfig) (now : Int) (action : PlanAction)
    (usage : ℚ) (prices : List (String × ℚ)) (tx : TxRequest)
    (receipt : TxReceipt)
    (htj1 : 0 ≤ c.base.maxNotionalPerTx) (htj2 : 0 ≤ c.base.dailyCap)
    (htj3 : c.base.defaultSlippageBps ≤ c.base.maxSlippageBps)
    (hbq1 : 0 ≤ benqiConfig.maxNotionalPerTx) (hbq2 : 0 ≤ benqiConfig.dailyCap)
    (hbq3 : 0 ≤ benqiConfig.maxSlippageBps)
    (hbad : (performSafetyChecks action c.base usage prices).passed = false) :
    tjSendAction c now tx (.ok receipt) = .ok receipt ∧
    benqiSendAction benqiConfig now tx (.ok receipt) = .ok receipt := by
  have htj : (performSafetyChecks (tjSendDummyAction c now) c.base 0 []).passed
      = true := by
    simp [performSafetyChecks, tjSendDummyAction, htj1, htj2, htj3]
  have hbq : (performSafetyChecks (benqiSendDummyAction now) benqiConfig 0
      []).passed = true := by
    simp [performSafetyChecks, benqiSendDummyAction, hbq1, hbq2, hbq3]
  constructor
  · simp [tjSendAction, htj]
  · simp [benqiSendAction, hbq]

/-- Witness for C1: with the repository's documented limits
(`maxNotionalPerTx 250`, `dailyCap 1000`, `defaultSlippageBps 50`,
`maxSlippageBps 500`), a transaction whose originating action
(`amountUsd 2500`) fails the Safety Engine is still broadcast by both
connectors' `sendAction`. -/
theorem C1_final_send_check_ignores_action_witness :
    ((0 : ℚ) ≤ tjConfigFix.base.maxNotionalPerTx ∧
     (0 : ℚ) ≤ tjConfigFix.base.dailyCap ∧
     tjConfigFix.base.defaultSlippageBps ≤ tjConfigFix.base.maxSlippageBps ∧
     (0 : ℚ) ≤ specConfig.maxNotionalPerTx ∧ (0 : ℚ) ≤ specConfig.dailyCap ∧
     (0 : Int) ≤ specConfig.maxSlippageBps ∧
     (performSafetyChecks specActionTooBig tjConfigFix.base 0 []).passed = false) ∧
    (tjSendAction tjConfigFix 1700000000
        (tjBuildSwapTx tjConfigFix 1700000000 specActionTooBig "0xWALLET")
        (.ok someReceipt) = .ok someReceipt ∧
     benqiSendAction specConfig 1700000000
        (tjBuildSwapTx tjConfigFix 1700000000 specActionTooBig "0xWALLET")
        (.ok someReceipt) = .ok someReceipt) :=
  ⟨⟨by norm_num [tjConfigFix, specConfig], by norm_num [tjConfigFix, specConfig],
    by norm_num [tjConfigFix, specConfig], by norm_num [specConfig],
    by norm_num [specConfig], by norm_num [specConfig],
    by norm_num [performSafetyChecks, specActionTooBig, specActionOk, tjConfigFix,
      specConfig]⟩,
   C1_final_send_check_ignores_action tjConfigFix specConfig 1700000000
     specActionTooBig 0 []
     (tjBuildSwapTx tjConfigFix 1700000000 specActionTooBig "0xWALLET")
     someReceipt
     (by norm_num [tjConfigFix, specConfig]) (by norm_num [tjConfigFix, specConfig])
     (by norm_num [tjConfigFix, specConfig]) (by norm_num [specConfig])
     (by norm_num [specConfig]) (by norm_num [specConfig])
     (by norm_num [performSafetyChecks, specActionTooBig, specActionOk, tjConfigFix,
       specConfig])⟩

/-! ## Claim C4: the Benqi health-factor gate -/

/-- A Benqi configuration for C4: generous generic limits so the
health-factor gate is the deciding check, minimum health factor `1.3`. -/
def benqiConfigFix : ProtocolConfig :=
  { name := "benqi", maxNotionalPerTx := 100000, dailyCap := 1000000,
    defaultSlippageBps := 50, maxSlippageBps := 500, minHealthFactor := 13/10 }

/-- A wallet state with 1400 USD supplied and 1000 USD borrowed (18
decimals, default-priced underlying): current health factor `1.4`. -/
def qTokenFix : QToken :=
  { key := "qiAVAX", address := "0xQIAVAX", market := .error (),
    balances := .ok { supply := 1400000000000000000000,
                      borrow := 1000000000000000000000,
                      underlying := "0xUSD" } }

/-- The same wallet after the proposed 10000-USD borrow settles:
1400 USD supplied, 11000 USD borrowed. -/
def qTokenFixAfterBorrow : QToken :=
  { qTokenFix with
    balances := .ok { supply := 1400000000000000000000,
                      borrow := 11000000000000000000000,
                      underlying := "0xUSD" } }

/-- A 10000-USD borrow action within the generic limits of
`benqiConfigFix`. -/
def borrowBigAction : PlanAction :=
  { type := .borrow, protocol := "benqi", fromToken := "",
    toToken := "0xQIAVAX", amount := 10000000000000000000000,
    amountUsd := 10000, slippageBps := 50, deadline := 1700000000,
    estimatedGas := 0, estimatedGasUsd := 0, riskScore := 0.5 }

/-- **C4 counterexample.** The wallet's current health factor (`1.4`) is
above the minimum (`1.3`), so `buildAction` lets a 10000-USD borrow
through and constructs the borrow transaction — even though the health
factor *after accounting for the proposed action* (`1400/11000 ≈ 0.127`)
is far below the minimum.  The gate therefore does not implement "ratio
remains ≥ minimum after accounting for the proposed action". -/
theorem C4_counterexample :
    benqiConfigFix.minHealthFactor ≤ calculateHealthFactor [qTokenFix] ∧
    calculateHealthFactor [qTokenFixAfterBorrow] < benqiConfigFix.minHealthFactor ∧
    benqiBuildAction benqiConfigFix [qTokenFix] (.ok 300000) { success := true }
        borrowBigAction "0xWALLET"
      = .ok ({ toAddr := "0xQIAVAX", data := .borrow borrowBigAction.amount,
               fromAddr := "0xWALLET", value := 0, gasLimit := some 300000 },
             { success := true }) := by
  have hne : "0xUSD" ≠ "0xB31f66AA3C1e785363F0875A1B74E27b85FD66c7" := by decide
  refine ⟨?_, ?_, ?_⟩
  · norm_num [calculateHealthFactor, tokenToUsd, getMockPrice, qTokenFix,
      benqiConfigFix, hne]
  · norm_num [calculateHealthFactor, tokenToUsd, getMockPrice, qTokenFix,
      qTokenFixAfterBorrow, benqiConfigFix, hne]
  · norm_num [benqiBuildAction, benqiWrapBuildError, performSafetyChecks,
      calculateHealthFactor, tokenToUsd, getMockPrice, benqiDispatch,
      getQTokenForToken, Bind.bind, Except.bind, qTokenFix, benqiConfigFix,
      borrowBigAction, hne]

/-- **C4 (amended).** For a `borrow`/`repay` action that passes the
generic safety check, `BenqiConnector.buildAction` blocks the action —
throwing `"Health factor ... below minimum ..."` before any transaction
is constructed — exactly when the wallet's *current* health factor
(total supplied USD over total borrowed USD, `999` with no borrows) is
below the configured minimum; the computation does not consult the
proposed action, so the gate does not account for the action's effect on
the ratio. -/
theorem C4_hf_gate_blocks_on_current_hf (config : ProtocolConfig)
    (qTokens : List QToken) (gas : Except String Int) (dry : DryRunResult)
    (action : PlanAction) (wallet : String)
    (hty : action.type = ActionType.borrow ∨ action.type = ActionType.repay)
    (hsafe : (performSafetyChecks action config 0 []).passed = true)
    (hhf : calculateHealthFactor qTokens < config.minHealthFactor) :
    benqiBuildAction config qTokens gas dry action wallet
      = .error ("Failed to build Benqi action: Error: "
          ++ ("Health factor " ++ toString (calculateHealthFactor qTokens)
            ++ " below minimum " ++ toString config.minHealthFactor)) := by
  rcases hty with h | h <;>
    simp [benqiBuildAction, benqiWrapBuildError, Bind.bind, Except.bind,
      h, hsafe, hhf]

/-- A wallet state with 1200 USD supplied and 1000 USD borrowed: current
health factor `1.2`, below the `1.3` minimum. -/
def qTokenLowHF : QToken :=
  { key := "qiAVAX", address := "0xQIAVAX", market := .error (),
    balances := .ok { supply := 1200000000000000000000,
                      borrow := 1000000000000000000000,
                      underlying := "0xUSD" } }

/-- A 100-USD borrow action within the generic limits of
`benqiConfigFix`. -/
def borrowSmallAction : PlanAction :=
  { borrowBigAction with amount := 100000000000000000000, amountUsd := 100 }

/-- Witness for C4 (amended) at the spec's scenario: health factor `1.2`
against minimum `1.3` for a `borrow` action — the adapter-level check
blocks the action before any transaction is built. -/
theorem C4_hf_gate_blocks_on_current_hf_witness :
    ((borrowSmallAction.type = ActionType.borrow ∨
      borrowSmallAction.type = ActionType.repay) ∧
     (performSafetyChecks borrowSmallAction benqiConfigFix 0 []).passed = true ∧
     calculateHealthFactor [qTokenLowHF] < benqiConfigFix.minHealthFactor) ∧
    benqiBuildAction benqiConfigFix [qTokenLowHF] (.ok 300000) { success := true }
        borrowSmallAction "0xWALLET"
      = .error ("Failed to build Benqi action: Error: "
          ++ ("Health factor " ++ toString (calculateHealthFactor [qTokenLowHF])
            ++ " below minimum " ++ toString benqiConfigFix.minHealthFactor)) :=
  ⟨⟨Or.inl rfl,
    by norm_num [performSafetyChecks, borrowSmallAction, borrowBigAction,
      benqiConfigFix],
    by
      have hne : "0xUSD" ≠ "0xB31f66AA3C1e785363F0875A1B74E27b85FD66c7" := by
        decide
      norm_num [calculateHealthFactor, tokenToUsd, getMockPrice, qTokenLowHF,
        benqiConfigFix, hne]⟩,
   C4_hf_gate_blocks_on_current_hf benqiConfigFix [qTokenLowHF] (.ok 300000)
     { success := true } borrowSmallAction "0xWALLET" (Or.inl rfl)
     (by norm_num [performSafetyChecks, borrowSmallAction, borrowBigAction,
       benqiConfigFix])
     (by
       have hne : "0xUSD" ≠ "0xB31f66AA3C1e785363F0875A1B74E27b85FD66c7" := by
         decide
       norm_num [calculateHealthFactor, tokenToUsd, getMockPrice, qTokenLowHF,
         benqiConfigFix, hne])⟩

/-! ## Claim C3: per-element read failures in discovery -/

lemma foldl_append_flatMap (g : α → List β) :
    ∀ (l : List α) (acc : List β),
      l.foldl (fun a x => a ++ g x) acc = acc ++ l.flatMap g := by
  intro l
  induction l with
  | nil => intro acc; simp
  | cons x xs ih => intro acc; simp [ih, List.append_assoc]

/-- **C3 counterexample.** With a single registered qToken whose chain
reads all fail, Benqi's `readOpportunities` does *not* omit the failing
element: it returns two fabricated placeholder opportunities for it —
hard-coded APR `8.5`/`12` supply/borrow entries — instead of the empty
list the claim requires. -/
theorem C3_counterexample :
    benqiReadOpportunities [qTokenFix] ≠ [] ∧
    benqiReadOpportunities [qTokenFix] = benqiMockOpps qTokenFix ∧
    (benqiReadOpportunities [qTokenFix]).map (fun o => o.id)
      = ["benqi-qiAVAX-supply-mock", "benqi-qiAVAX-borrow-mock"] ∧
    (benqiReadOpportunities [qTokenFix]).map (fun o => o.apr) = [8.5, 12] := by
  refine ⟨?_, rfl, rfl, rfl⟩
  · simp [benqiReadOpportunities, benqiTokenOpps, benqiMockOpps, qTokenFix]

/-- **C3 (amended).** Per-element failure handling differs per connector:
TraderJoe's `readOpportunities` omits every failing pair — the result is
exactly the real opportunities of the successfully read pairs, and the
call never throws — while Benqi's `readOpportunities` does not omit a
failing qToken: both fabricated mock placeholder opportunities for that
qToken appear in the result (the call also never throws). -/
theorem C3_element_failure_handling (c : TraderJoeConfig)
    (symbolOf : String → Except Unit String) (qTokens : List QToken)
    (q : QToken) (hq : q ∈ qTokens) (hfail : q.market = Except.error ()) :
    tjReadOpportunities c symbolOf
      = ((tjPairs c).filter (fun p => (symbolOf p.1).isOk)).map
          (fun p => tjSwapOpp p.1 p.2.2) ∧
    ∀ o ∈ benqiMockOpps q, o ∈ benqiReadOpportunities qTokens := by
  constructor
  · rcases h1 : symbolOf c.wavax with u1 | s1 <;>
      rcases h2 : symbolOf c.usdc with u2 | s2 <;>
        simp [tjReadOpportunities, tjPairs, h1, h2, Except.isOk, Except.toBool]
  · intro o ho
    have hTok : benqiTokenOpps q = benqiMockOpps q := by
      simp [benqiTokenOpps, hfail]
    have hfold : qTokens.foldl (fun acc q => acc ++ benqiTokenOpps q) []
        = qTokens.flatMap benqiTokenOpps := by
      simpa using foldl_append_flatMap benqiTokenOpps qTokens []
    have hmem : o ∈ qTokens.flatMap benqiTokenOpps :=
      List.mem_flatMap.mpr ⟨q, hq, by rw [hTok]; exact ho⟩
    have hne : (qTokens.flatMap benqiTokenOpps).isEmpty = false := by
      cases h : qTokens.flatMap benqiTokenOpps with
      | nil => rw [h] at hmem; cases hmem
      | cons a t => rfl
    simpa [benqiReadOpportunities, hfold, hne] using hmem

/-- A symbol oracle for the C3 witness: the WAVAX read fails, every other
read succeeds. -/
def symbolOfFix : String → Except Unit String := fun s =>
  if s = "0xB31f66AA3C1e785363F0875A1B74E27b85FD66c7" then .error ()
  else .ok "USDC"

/-- Witness for C3 (amended): a failing WAVAX read drops both
WAVAX-based pairs from TraderJoe's result, while the Benqi mocks for the
all-failing `qTokenFix` are present in Benqi's result. -/
theorem C3_element_failure_handling_witness :
    (qTokenFix ∈ [qTokenFix] ∧ qTokenFix.market = Except.error ()) ∧
    (tjReadOpportunities tjConfigFix symbolOfFix
       = ((tjPairs tjConfigFix).filter (fun p => (symbolOfFix p.1).isOk)).map
           (fun p => tjSwapOpp p.1 p.2.2) ∧
     ∀ o ∈ benqiMockOpps qTokenFix, o ∈ benqiReadOpportunities [qTokenFix]) :=
  ⟨⟨List.mem_singleton.mpr rfl, rfl⟩,
   C3_element_failure_handling tjConfigFix symbolOfFix [qTokenFix] qTokenFix
     (List.mem_singleton.mpr rfl) rfl⟩

/-! ## Claim C6: aggregator partial-failure isolation -/

/-- **C6.** If one adapter's discovery throws, the Testnet aggregator's
combined discovery still returns the opportunities of every other
adapter: the failing adapter contributes the empty sequence and the
aggregate call succeeds; identically for the aggregated position read
(given the aggregate call's own prelude — current block / fee data,
resp. the native-balance read — succeeded, since those are outside the
per-adapter `try/catch`). -/
theorem C6_aggregator_isolates_adapter_failure (e : String)
    (as ps ts : List Opportunity) (n pa pp pt : List Position) :
    (testnetReadOpportunities (.ok ()) (.error e) (.ok ps) (.ok ts)
       = .ok (ps ++ ts) ∧
     testnetReadOpportunities (.ok ()) (.ok as) (.error e) (.ok ts)
       = .ok (as ++ ts) ∧
     testnetReadOpportunities (.ok ()) (.ok as) (.ok ps) (.error e)
       = .ok (as ++ ps)) ∧
    (testnetReadPosition (.ok n) (.error e) (.ok pp) (.ok pt)
       = .ok (n ++ pp ++ pt) ∧
     testnetReadPosition (.ok n) (.ok pa) (.error e) (.ok pt)
       = .ok (n ++ pa ++ pt) ∧
     testnetReadPosition (.ok n) (.ok pa) (.ok pp) (.error e)
       = .ok (n ++ pa ++ pp)) := by
  refine ⟨⟨?_, ?_, ?_⟩, ⟨?_, ?_, ?_⟩⟩ <;>
    simp [testnetReadOpportunities, testnetReadPosition, collectOrEmpty]

/-! ## Claim C10: YieldYak vault fallback -/

/-- **C10.** `getVaultForToken` resolution for a `deposit` whose target
matches no vault: with at least one registered vault the call falls back
to the *first* registered vault and the deposit transaction is encoded
against that vault's address (never a failure); `buildDepositTx` throws
`"No vault found ..."` only when the vault map is empty. -/
theorem C10_vault_fallback (vaults : List YYVault) (action : PlanAction)
    (wallet : String) :
    (vaults = [] →
      yyBuildDepositTx vaults action wallet
        = .error ("No vault found for token " ++ action.toToken)) ∧
    (vaults ≠ [] → ∃ tx, yyBuildDepositTx vaults action wallet = .ok tx) ∧
    (∀ v0 rest, vaults = v0 :: rest →
      (∀ v ∈ vaults, yyVaultMatchesToken v action.toToken = false) →
      (∀ v ∈ vaults, (v.address == action.toToken) = false) →
      yyBuildDepositTx vaults action wallet
        = .ok { toAddr := v0.address, data := .deposit action.amount,
                fromAddr := wallet, value := 0 }) := by
  refine ⟨?_, ?_, ?_⟩
  · intro h
    subst h
    simp [yyBuildDepositTx, getVaultForToken]
  · intro h
    unfold yyBuildDepositTx getVaultForToken
    cases h1 : vaults.find? (fun v => yyVaultMatchesToken v action.toToken) with
    | some v => exact ⟨_, rfl⟩
    | none =>
        cases h2 : vaults.find? (fun v => v.address == action.toToken) with
        | some v => exact ⟨_, rfl⟩
        | none =>
            cases vaults with
            | nil => exact absurd rfl h
            | cons v0 rest => exact ⟨_, rfl⟩
  · intro v0 rest hv h1 h2
    have hf1 : vaults.find? (fun v => yyVaultMatchesToken v action.toToken)
        = none :=
      List.find?_eq_none.mpr (fun x hx => by simp [h1 x hx])
    have hf2 : vaults.find? (fun v => v.address == action.toToken) = none :=
      List.find?_eq_none.mpr (fun x hx => by simp [h2 x hx])
    subst hv
    simp [yyBuildDepositTx, getVaultForToken, hf1, hf2]

/-- A registered vault for the C10 witness whose underlying token does
not match the requested deposit token. -/
def yyVaultFix : YYVault :=
  { key := "avax", address := "0xVAULT1", tokenRes := .ok "0xUNDERLYING1" }

/-- A vault-deposit action targeting a token no vault is configured
for. -/
def depositActionFix : PlanAction :=
  { type := .deposit, protocol := "yieldyak", fromToken := "",
    toToken := "0xNOMATCH", amount := 5000000, amountUsd := 5,
    slippageBps := 0, deadline := 1700000000, estimatedGas := 0,
    estimatedGasUsd := 0, riskScore := 0.3 }

/-- Witness for C10: a deposit targeting `"0xNOMATCH"`, which matches
neither the vault's underlying token nor its address, is encoded against
the first registered vault `"0xVAULT1"`; with no vaults registered the
same call throws `"No vault found ..."`. -/
theorem C10_vault_fallback_witness :
    ([yyVaultFix] = yyVaultFix :: [] ∧
     (∀ v ∈ [yyVaultFix], yyVaultMatchesToken v depositActionFix.toToken = false) ∧
     (∀ v ∈ [yyVaultFix], (v.address == depositActionFix.toToken) = false)) ∧
    yyBuildDepositTx [yyVaultFix] depositActionFix "0xWALLET"
      = .ok { toAddr := yyVaultFix.address,
              data := .deposit depositActionFix.amount,
              fromAddr := "0xWALLET", value := 0 } ∧
    yyBuildDepositTx [] depositActionFix "0xWALLET"
      = .error ("No vault found for token " ++ depositActionFix.toToken) :=
  ⟨⟨rfl, by decide, by decide⟩,
   (C10_vault_fallback [yyVaultFix] depositActionFix "0xWALLET").2.2 yyVaultFix []
     rfl (by decide) (by decide),
   (C10_vault_fallback [] depositActionFix "0xWALLET").1 rfl⟩

end AYO
